import Mathlib

/-!
Shallow embedding of the fuel-indexer execution & lifecycle subsystem:
the per-executor `Database` session (packages/fuel-indexer/src/database.rs)
and the service supervisor's request handlers
(packages/fuel-indexer/src/service.rs, `create_service_task` and
`get_start_block`), together with theorems settling the specified
behaviour against this embedding.

Rust `HashMap`s are embedded as association lists with unique keys;
`Option<IndexerConnection>` is embedded by whether a connection is
stashed (the connection value itself carries no state the code reads).
Rust panics (`expect`, `HashMap` indexing) are embedded as
`Except.error` carrying the panic message; a normal return is
`Except.ok`.
-/

namespace FuelIndexer

/-- Association-list lookup, mirroring `HashMap::get`. -/
def lookupAssoc {α β : Type} [DecidableEq α] : List (α × β) → α → Option β
  | [], _ => none
  | (k, v) :: rest, a => if k = a then some v else lookupAssoc rest a

/-- Association-list remove, mirroring `HashMap::remove`: returns the
removed value (if any) and the remaining map. -/
def removeAssoc {α β : Type} [DecidableEq α] : List (α × β) → α → Option β × List (α × β)
  | [], _ => (none, [])
  | (k, v) :: rest, a =>
      if k = a then (some v, rest)
      else
        let r := removeAssoc rest a
        (r.1, (k, v) :: r.2)

/-- Association-list insert, mirroring `HashMap::insert`: replaces the
binding in place and returns the previous value (if any). -/
def insertAssoc {α β : Type} [DecidableEq α] : List (α × β) → α → β → Option β × List (α × β)
  | [], a, b => (none, [(a, b)])
  | (k, v) :: rest, a, b =>
      if k = a then (some v, (a, b) :: rest)
      else
        let r := insertAssoc rest a b
        (r.1, (k, v) :: r.2)

/-- A guest-supplied column value; the code only ever consumes it through
`FtColumn::query_fragment`, so the embedding carries the fragment text. -/
structure FtColumn where
  fragment : String
deriving DecidableEq, Repr

/-- Mirror of `FtColumn::query_fragment`. -/
def FtColumn.query_fragment (c : FtColumn) : String := c.fragment

/-- Errors of `IndexerError` that the embedded operations can return. -/
inductive IndexerError
  | NoTransactionError
  | SqlError
deriving DecidableEq, Repr

/-- The `Database` struct of database.rs. `stashed` records whether a
connection is stashed (`Option<IndexerConnection>::is_some`); `schema`
maps a qualified table to its ordered column list, `tables` maps a
type-id to its qualified table. -/
structure Database where
  stashed : Bool
  nspace : String
  identifier : String
  version : String
  schema : List (String × List String)
  tables : List (Int × String)
deriving DecidableEq, Repr

/-- Modelled from the spec: the SQL backend behind `queries::put_object` /
`queries::get_object` (package fuel-indexer-database, not under src/).
A store of rows keyed by (qualified table, id value rendered as text);
per the spec each entity table stores the full blob in its `object`
column and upserts by `id`, so an upsert binds the blob to the key and
a get returns the most recent blob bound to the key, or none. -/
def Backend := List ((String × String) × List Nat)

instance : DecidableEq Backend := by
  unfold Backend
  infer_instance

/-- Modelled from the spec: executing the generated upsert stores `bytes`
as the most recent blob for the row keyed by `idValue` in `table`. -/
def backendPut (b : Backend) (table : String) (idValue : String) (bytes : List Nat) : Backend :=
  ((table, idValue), bytes) :: b

/-- Modelled from the spec: executing the generated select returns the
most recent blob stored for the row keyed by `idValue` in `table`, or
none (the code maps a row-not-found error to `None`). -/
def backendGet (b : Backend) (table : String) (idValue : String) : Option (List Nat) :=
  (b.find? (fun e => e.1 = (table, idValue))).map (fun e => e.2)

/-- `Database::start_transaction`: acquires a connection from the pool,
executes `BEGIN`, stashes the connection and returns the query result
(embedded as 0 rows affected). `sqlOk` stands for the pool acquire and
the `BEGIN` both succeeding; on failure the error propagates via `?`
and the stashed slot is left as it was. There is no check that a
transaction is already open: the stashed slot is overwritten. -/
def start_transaction (sqlOk : Bool) (db : Database) : Except IndexerError (Database × Nat) :=
  if sqlOk then .ok ({ db with stashed := true }, 0) else .error .SqlError

/-- `Database::commit_transaction`: takes the stashed connection
(`NoTransactionError` if none), executes `COMMIT`. -/
def commit_transaction (db : Database) : Except IndexerError (Database × Nat) :=
  if db.stashed then .ok ({ db with stashed := false }, 0) else .error .NoTransactionError

/-- `Database::revert_transaction`: takes the stashed connection
(`NoTransactionError` if none), executes `ROLLBACK`. -/
def revert_transaction (db : Database) : Except IndexerError (Database × Nat) :=
  if db.stashed then .ok ({ db with stashed := false }, 0) else .error .NoTransactionError

/-- `Database::upsert_query`, reproducing the format string of the code
(whitespace included). -/
def upsert_query (table : String) (columns : List String)
    (inserts : List String) (updates : List String) : String :=
  "INSERT INTO " ++ table ++ "\n                (" ++ String.intercalate ", " columns ++
    ")\n             VALUES\n                (" ++ String.intercalate ", " inserts ++
    ", $1)\n             ON CONFLICT(id)\n             DO UPDATE SET " ++
    String.intercalate ", " updates

/-- `Database::get_query`. -/
def get_query (table : String) (object_id : Nat) : String :=
  "SELECT object from " ++ table ++ " where id = " ++ toString object_id

/-- The `updates` vector of `Database::put_object`: zip the table's
column names with the guest values and keep `col = fragment` for every
pair whose column is not the id column (`IdCol::to_lowercase_string()`
is the constant "id"). `zip` truncates at the shorter list. -/
def mkUpdates (colnames : List String) (values : List FtColumn) : List String :=
  (colnames.zip values).filterMap (fun p =>
    if p.1 = "id" then none else some (p.1 ++ " = " ++ p.2.query_fragment))

/-- Position of the id column's guest fragment: the guest emits values in
the table's column order (spec §3), so the id value is the fragment at
the index of "id" in the column list; used by the spec-modelled backend
to key the upsert. -/
def idFragment (colnames : List String) (values : List FtColumn) : String :=
  match colnames.indexOf "id" with
  | i => ((values.get? i).map FtColumn.query_fragment).getD ""

/-- `Database::put_object`. Result: `Except.error msg` embeds a panic
(`expect`); `.ok (backend, generatedSql?, logs)` embeds a normal return,
where `generatedSql?` is the upsert text sent to the backend (none when
the type-id is unknown and the call only logs) and `logs` the `error!`
lines (the code's log also dumps the tables map, elided here). The
backend write is the spec-modelled effect of `queries::put_object`;
its own SQL failure would be a panic, not modelled as it has no
bearing on the claims. -/
def put_object (db : Database) (b : Backend) (type_id : Int)
    (columns : List FtColumn) (bytes : List Nat) :
    Except String (Backend × Option String × List String) :=
  match lookupAssoc db.tables type_id with
  | none => .ok (b, none, ["TypeId(" ++ toString type_id ++ ") not found in tables"])
  | some table =>
    match lookupAssoc db.schema table with
    | none => .error "key not found in schema"
    | some cols =>
      let inserts := columns.map FtColumn.query_fragment
      let updates := mkUpdates cols columns
      let query_text := upsert_query table cols inserts updates
      if db.stashed then
        .ok (backendPut b table (idFragment cols columns) bytes, some query_text, [])
      else
        .error "No transaction has been opened."

/-- `Database::get_object`. `self.tables[&type_id]` panics when the
type-id is absent (embedded as `.error`), as does the `expect` on the
stashed connection; otherwise the spec-modelled backend answers the
generated select. -/
def get_object (db : Database) (b : Backend) (type_id : Int) (object_id : Nat) :
    Except String (Option (List Nat)) :=
  match lookupAssoc db.tables type_id with
  | none => .error "key not found in tables"
  | some table =>
    let _query := get_query table object_id
    if db.stashed then
      .ok (backendGet b table (toString object_id))
    else
      .error "No transaction has been opened."

/-- The manifest fields read by service.rs (`namespace` is spelled
`nspace`, the Rust field name being a Lean keyword). -/
structure Manifest where
  nspace : String
  identifier : String
  start_block : Option Nat
  resumable : Option Bool
deriving DecidableEq, Repr

/-- `Manifest::uid`: `"{namespace}.{identifier}"`. -/
def Manifest.uid (m : Manifest) : String := m.nspace ++ "." ++ m.identifier

/-- `get_start_block` of service.rs. `persisted` stands for
`queries::last_block_height_for_indexer` (fuel-indexer-database, not
under src/), giving the height persisted for (namespace, identifier);
its SQL failure would propagate via `?`, not modelled as no claim
concerns it. The match arm `Some(_)` discards the boolean. -/
def get_start_block (persisted : String → String → Nat) (manifest : Manifest) : Nat :=
  match manifest.resumable with
  | some _ => persisted manifest.nspace manifest.identifier
  | none => manifest.start_block.getD 1

/-- Modelled from the spec: the executor loop (executor.rs, not under
src/) after committing a block batch records the new block height for
the uid — the cursor advanced past the batch, i.e. last committed
block + 1 (spec §4.4 step 5; §8 scenarios 1–2: blocks 10..12
committed, cursor and persisted resume point both 13). This is the
value `queries::last_block_height_for_indexer` later returns. -/
def recordedHeight (lastCommitted : Nat) : Nat := lastCommitted + 1

/-- Supervisor-owned state of `create_service_task`: `flags` is the heap
of per-executor cancellation booleans (an `Arc<AtomicBool>` is embedded
as an index into it), `killers` the uid → flag-index map. The set of
spawned executor handles is tracked through the handlers' event
traces. -/
structure SupState where
  flags : List Bool
  killers : List (String × Nat)
deriving DecidableEq, Repr

/-- Observable steps of the `IndexStop` handler. -/
inductive StopEvent
  | flagStored
  | warnedUnknown
deriving DecidableEq, Repr

/-- The `ServiceRequest::IndexStop` arm of `create_service_task`:
`killers.remove(&uid)`; on a hit, store `true` in the removed flag; on
a miss, log a warning. Nothing panics and no error is surfaced; the
loop continues with the next request either way. -/
def handleIndexStop (st : SupState) (ns ident : String) : SupState × StopEvent :=
  let uid := ns ++ "." ++ ident
  match removeAssoc st.killers uid with
  | (some i, killers1) => ({ flags := st.flags.set i true, killers := killers1 }, .flagStored)
  | (none, _) => (st, .warnedUnknown)

/-- Observable steps of the `AssetReload` handler. -/
inductive ReloadEvent
  | erroredIndexNotFound
  | spawnedNew
  | pushedHandle
  | stoppedPrev
deriving DecidableEq, Repr

/-- Result of the `AssetReload` handler: the state, the trace in
execution order, and the panic message if an `expect` fired. -/
structure ReloadOutcome where
  state : SupState
  events : List ReloadEvent
  panicked : Option String
deriving DecidableEq, Repr

/-- The `ServiceRequest::AssetReload` arm of `create_service_task`.
`idOk` stands for `queries::index_id_for` succeeding (on failure the
arm logs and `continue`s), `createOk` for `WasmIndexExecutor::create`
succeeding (on failure the `expect` panics before anything mutates).
`manifestUid` is `manifest.uid()` for the manifest deserialized from
the latest stored assets. On success: push the new handle, insert the
new killer, and if a previous killer was displaced, store `true` in
it. The fetch of latest assets, the manifest parse and the connection
acquire are `expect`s whose failures are not claim-relevant; the
`get_start_block` call's `?` likewise. -/
def handleAssetReload (st : SupState) (manifestUid : String)
    (idOk : Bool) (createOk : Bool) : ReloadOutcome :=
  if !idOk then
    ⟨st, [.erroredIndexNotFound], none⟩
  else if !createOk then
    ⟨st, [], some "Failed to spawn executor from index asset registry"⟩
  else
    let newIdx := st.flags.length
    let flags1 := st.flags ++ [false]
    let r := insertAssoc st.killers manifestUid newIdx
    match r.1 with
    | some oldIdx =>
        ⟨{ flags := flags1.set oldIdx true, killers := r.2 },
          [.spawnedNew, .pushedHandle, .stoppedPrev], none⟩
    | none =>
        ⟨{ flags := flags1, killers := r.2 }, [.spawnedNew, .pushedHandle], none⟩

/-- Observable steps of the `IndexRevert` handler, in execution order. -/
inductive RevertEvent
  | setOldFlag
  | warnedUnknown
  | beganTx
  | removedLatestModule
  | removalFailed
  | committedTx
  | rolledBackTx
  | spawnedFrom (bytes : List Nat)
  | pushedHandle
deriving DecidableEq, Repr

/-- The `ServiceRequest::IndexRevert` arm of `create_service_task`.
First, if `killers.get(&uid)` hits, store `true` in that flag (the
flag stays in the map), else warn. Then acquire a connection, `BEGIN`,
fetch the latest assets, and attempt `remove_asset_by_version`
(`removeOk`): on failure log and `ROLLBACK`, on success `COMMIT`.
Regardless of the outcome, parse the manifest from the fetched assets,
build a fresh executor from `request.penultimate_asset_bytes`, push
its handle and insert its killer under `manifest.uid()`. The
`expect`ed acquire/fetch/parse/create and the `get_start_block` `?`
are assumed to succeed, as no claim concerns their failure. -/
def handleIndexRevert (st : SupState) (ns ident : String) (manifestUid : String)
    (penultimateBytes : List Nat) (removeOk : Bool) : SupState × List RevertEvent :=
  let uid := ns ++ "." ++ ident
  let step1 : List RevertEvent × List Bool :=
    match lookupAssoc st.killers uid with
    | some i => ([.setOldFlag], st.flags.set i true)
    | none => ([.warnedUnknown], st.flags)
  let txEvents : List RevertEvent :=
    if removeOk then [.beganTx, .removedLatestModule, .committedTx]
    else [.beganTx, .removalFailed, .rolledBackTx]
  let newIdx := step1.2.length
  let flags1 := step1.2 ++ [false]
  let r := insertAssoc st.killers manifestUid newIdx
  ({ flags := flags1, killers := r.2 },
    step1.1 ++ txEvents ++ [.spawnedFrom penultimateBytes, .pushedHandle])

/-! Helper lemmas about the association-list embedding of `HashMap`. -/

theorem lookupAssoc_eq_none_of_not_mem {α β : Type} [DecidableEq α]
    (l : List (α × β)) (a : α) (h : a ∉ l.map Prod.fst) : lookupAssoc l a = none := by
  induction l with
  | nil => rfl
  | cons p rest ih =>
      simp only [List.map_cons, List.mem_cons, not_or] at h
      simp only [lookupAssoc]
      rw [if_neg (fun hk => h.1 hk.symm)]
      exact ih h.2

theorem removeAssoc_of_lookup_none {α β : Type} [DecidableEq α]
    (l : List (α × β)) (a : α) (h : lookupAssoc l a = none) :
    removeAssoc l a = (none, l) := by
  induction l with
  | nil => rfl
  | cons p rest ih =>
      simp only [lookupAssoc] at h
      by_cases hk : p.1 = a
      · rw [if_pos hk] at h
        exact absurd h (by simp)
      · rw [if_neg hk] at h
        simp only [removeAssoc]
        rw [if_neg hk, ih h]

theorem lookup_none_after_remove {α β : Type} [DecidableEq α]
    (l : List (α × β)) (a : α) (v : β) (l' : List (α × β))
    (hn : (l.map Prod.fst).Nodup) (h : removeAssoc l a = (some v, l')) :
    lookupAssoc l' a = none := by
  induction l generalizing l' with
  | nil => simp [removeAssoc] at h
  | cons p rest ih =>
      simp only [List.map_cons, List.nodup_cons] at hn
      simp only [removeAssoc] at h
      by_cases hk : p.1 = a
      · rw [if_pos hk, Prod.mk.injEq] at h
        obtain ⟨-, h2⟩ := h
        subst h2
        exact lookupAssoc_eq_none_of_not_mem rest a (hk ▸ hn.1)
      · rw [if_neg hk] at h
        rcases hrem : removeAssoc rest a with ⟨r1, r2⟩
        rw [hrem, Prod.mk.injEq] at h
        obtain ⟨h1, h2⟩ := h
        subst h1
        subst h2
        simp only [lookupAssoc]
        rw [if_neg hk]
        exact ih r2 hn.2 hrem

theorem insertAssoc_fst {α β : Type} [DecidableEq α]
    (l : List (α × β)) (a : α) (b : β) : (insertAssoc l a b).1 = lookupAssoc l a := by
  induction l with
  | nil => rfl
  | cons p rest ih =>
      simp only [insertAssoc, lookupAssoc]
      by_cases hk : p.1 = a
      · rw [if_pos hk, if_pos hk]
      · rw [if_neg hk, if_neg hk]
        exact ih

theorem lookup_insertAssoc {α β : Type} [DecidableEq α]
    (l : List (α × β)) (a : α) (b : β) :
    lookupAssoc (insertAssoc l a b).2 a = some b := by
  induction l with
  | nil => simp [insertAssoc, lookupAssoc]
  | cons p rest ih =>
      simp only [insertAssoc]
      by_cases hk : p.1 = a
      · rw [if_pos hk]
        simp [lookupAssoc]
      · rw [if_neg hk]
        simp only [lookupAssoc]
        rw [if_neg hk]
        exact ih

theorem mkUpdates_cons (c : String) (cs : List String) (v : FtColumn) (vs : List FtColumn) :
    mkUpdates (c :: cs) (v :: vs) =
      if c = "id" then mkUpdates cs vs
      else (c ++ " = " ++ v.query_fragment) :: mkUpdates cs vs := by
  by_cases hc : c = "id" <;> simp [mkUpdates, hc]

theorem mkUpdates_length (cols : List String) (vals : List FtColumn) :
    (mkUpdates cols vals).length =
      ((cols.take vals.length).filter (fun c => !(c == "id"))).length := by
  induction cols generalizing vals with
  | nil => simp [mkUpdates]
  | cons c cs ih =>
      cases vals with
      | nil => simp [mkUpdates]
      | cons v vs =>
          rw [mkUpdates_cons]
          by_cases hc : c = "id"
          · simp [hc, List.take_succ_cons, List.filter_cons, ih vs]
          · simp [hc, List.take_succ_cons, List.filter_cons, ih vs]

/-- Whether an embedded host call panicked. -/
def isPanic {α : Type} : Except String α → Bool
  | .error _ => true
  | .ok _ => false

/-! Claim theorems. -/

/-- Claim C3, counterexample: a session already InTx (a connection is
stashed) on which `start_transaction` succeeds instead of failing —
refuting "it fails (returns an error, leaving the session state
unchanged) when called while a transaction is already open". -/
theorem start_transaction_in_tx_succeeds_cex :
    (Database.mk true "n" "i" "v" [] []).stashed = true
    ∧ start_transaction true (Database.mk true "n" "i" "v" [] []) =
        .ok (Database.mk true "n" "i" "v" [] [], 0) :=
  ⟨rfl, rfl⟩

/-- Claim C3, amended: `start_transaction` acquires a connection and
begins a transaction unconditionally, advancing to InTx; called while
a transaction is already open it does not fail — it overwrites the
stashed connection and stays InTx. Only a SQL/pool failure makes it
return an error (stashed slot untouched). -/
theorem start_transaction_unconditional (db : Database) :
    start_transaction true db = .ok ({ db with stashed := true }, 0)
    ∧ start_transaction false db = .error .SqlError :=
  ⟨rfl, rfl⟩

/-- Claim C2, counterexample: a `put_object` call whose type-id is
absent from the tables map returns normally (`.ok`) with only a log
line — it is not translated into a host error and nothing reverts the
in-flight transaction, refuting the claim as stated. -/
theorem put_object_unknown_type_id_cex :
    put_object (Database.mk true "n" "i" "v" [] []) [] 7 [] [1, 2] =
      .ok ([], none, ["TypeId(7) not found in tables"]) :=
  rfl

/-- Claim C2, amended: for every `put_object` call whose type-id is not
present in the tables map, the call logs an error naming the type-id
and returns normally: no host error is raised, nothing is written, the
current block is not aborted and the transaction is not reverted (and
the executor is not killed). -/
theorem put_object_unknown_type_id_logs (db : Database) (b : Backend) (tid : Int)
    (columns : List FtColumn) (bytes : List Nat)
    (h : lookupAssoc db.tables tid = none) :
    put_object db b tid columns bytes =
      .ok (b, none, ["TypeId(" ++ toString tid ++ ") not found in tables"]) := by
  simp [put_object, h]

/-- Claim C2, witness: the amended theorem applied at a concrete unknown
type-id. -/
theorem put_object_unknown_type_id_logs_witness :
    put_object (Database.mk true "n" "i" "v" [("t", ["id"])] [(1, "t")]) [] 9
        [FtColumn.mk "5"] [3] =
      .ok ([], none, ["TypeId(" ++ toString (9 : Int) ++ ") not found in tables"]) :=
  put_object_unknown_type_id_logs (Database.mk true "n" "i" "v" [("t", ["id"])] [(1, "t")])
    [] 9 [FtColumn.mk "5"] [3] rfl

/-- Claim C6, counterexample: with table `t` having columns
`[id, x, object]`, a guest vector of zero fragments still produces the
upsert (column count 3, value count 0, and 3 ≠ 0 + 1), refuting the
universally quantified count invariant; and for a well-formed guest
vector the update clauses cover only the non-id columns paired with a
guest fragment — the trailing blob column `object` gets none,
refuting "an update clause for every column except id". -/
theorem upsert_counts_cex :
    put_object (Database.mk true "n" "i" "v" [("t", ["id", "x", "object"])] [(1, "t")])
        [] 1 [] [5] =
      .ok ([(("t", ""), [5])], some (upsert_query "t" ["id", "x", "object"] [] []), [])
    ∧ ¬ ((["id", "x", "object"] : List String).length = ([] : List FtColumn).length + 1)
    ∧ mkUpdates ["id", "x", "object"] [FtColumn.mk "7", FtColumn.mk "'acct'"] = ["x = 'acct'"] :=
  ⟨rfl, by decide, rfl⟩

/-- Claim C6, amended: for every type-id present in the tables map (with
its table in the schema map and a transaction open), the generated SQL
is exactly `upsert_query table cols inserts updates` — the shape
`INSERT INTO table (cols) VALUES (fragments, $1) ON CONFLICT(id) DO
UPDATE SET updates` — where the update clauses cover exactly the
non-id columns that are paired with a guest fragment (`zip`
truncation: the trailing blob column gets no clause); and the count
invariant `column_count = value_count + 1` holds exactly when the
guest supplies one fragment fewer than there are columns. -/
theorem upsert_shape_and_counts (db : Database) (b : Backend) (tid : Int)
    (columns : List FtColumn) (bytes : List Nat) (table : String) (cols : List String)
    (h1 : lookupAssoc db.tables tid = some table)
    (h2 : lookupAssoc db.schema table = some cols)
    (h3 : db.stashed = true)
    (h4 : columns.length + 1 = cols.length) :
    put_object db b tid columns bytes =
      .ok (backendPut b table (idFragment cols columns) bytes,
        some (upsert_query table cols (columns.map FtColumn.query_fragment)
          (mkUpdates cols columns)), [])
    ∧ cols.length = (columns.map FtColumn.query_fragment).length + 1
    ∧ (mkUpdates cols columns).length =
        ((cols.take columns.length).filter (fun c => !(c == "id"))).length := by
  refine ⟨?_, ?_, mkUpdates_length cols columns⟩
  · simp [put_object, h1, h2, h3]
  · simp only [List.length_map]
    omega

/-- Claim C6, witness: the amended theorem applied at a concrete schema
with columns `[id, x, object]` and a two-fragment guest vector. -/
theorem upsert_shape_and_counts_witness :
    (["id", "x", "object"] : List String).length =
      (([FtColumn.mk "7", FtColumn.mk "'acct'"]).map FtColumn.query_fragment).length + 1 :=
  (upsert_shape_and_counts
    (Database.mk true "n" "i" "v" [("t", ["id", "x", "object"])] [(1, "t")])
    [] 1 [FtColumn.mk "7", FtColumn.mk "'acct'"] [1] "t" ["id", "x", "object"]
    rfl rfl rfl rfl).2.1

/-- Claim C8: within one open transaction, `put_object` for a known
type-id followed by `get_object` for the same entity id returns the
blob just written (the backend answers with the most recent blob for
that id). The hypothesis ties the guest's id fragment to the queried
object id. -/
theorem put_then_get_roundtrip (db : Database) (b : Backend) (tid : Int)
    (columns : List FtColumn) (bytes : List Nat) (oid : Nat) (table : String)
    (cols : List String)
    (h1 : lookupAssoc db.tables tid = some table)
    (h2 : lookupAssoc db.schema table = some cols)
    (h3 : db.stashed = true)
    (h4 : idFragment cols columns = toString oid) :
    put_object db b tid columns bytes =
      .ok (backendPut b table (toString oid) bytes,
        some (upsert_query table cols (columns.map FtColumn.query_fragment)
          (mkUpdates cols columns)), [])
    ∧ get_object db (backendPut b table (toString oid) bytes) tid oid = .ok (some bytes) := by
  constructor
  · simp [put_object, h1, h2, h3, h4]
  · simp [get_object, h1, h3, backendPut, backendGet]

/-- Claim C8, witness: the round-trip at a concrete session, schema and
entity id 42. -/
theorem put_then_get_roundtrip_witness :
    get_object (Database.mk true "n" "i" "v" [("t", ["id", "object"])] [(1, "t")])
        (backendPut [] "t" (toString (42 : Nat)) [7, 8]) 1 42 = .ok (some [7, 8]) :=
  (put_then_get_roundtrip
    (Database.mk true "n" "i" "v" [("t", ["id", "object"])] [(1, "t")])
    [] 1 [FtColumn.mk "42"] [7, 8] 42 "t" ["id", "object"] rfl rfl rfl rfl).2

/-- Claim C9: `get_object` is partial at the public interface — with a
type-id absent from the tables map, or with no transaction open, it
panics (embedded as `.error`), while `put_object` with an unknown
type-id merely logs and returns normally. -/
theorem get_object_panics_on_misuse (db : Database) (b : Backend) (tid : Int) (oid : Nat)
    (columns : List FtColumn) (bytes : List Nat)
    (h : lookupAssoc db.tables tid = none ∨ db.stashed = false) :
    isPanic (get_object db b tid oid) = true
    ∧ (lookupAssoc db.tables tid = none →
        put_object db b tid columns bytes =
          .ok (b, none, ["TypeId(" ++ toString tid ++ ") not found in tables"])) := by
  constructor
  · rcases h with h | h
    · simp [get_object, h, isPanic]
    · cases htab : lookupAssoc db.tables tid with
      | none => simp [get_object, htab, isPanic]
      | some table => simp [get_object, htab, h, isPanic]
  · intro h2
    simp [put_object, h2]

/-- Claim C9, witness: concrete calls — `get_object` on an unknown
type-id panics and `put_object` there returns normally. -/
theorem get_object_panics_on_misuse_witness :
    isPanic (get_object (Database.mk true "n" "i" "v" [] []) [] 3 0) = true
    ∧ put_object (Database.mk true "n" "i" "v" [] []) [] 3 [] [] =
        .ok ([], none, ["TypeId(" ++ toString (3 : Int) ++ ") not found in tables"]) :=
  ⟨(get_object_panics_on_misuse (Database.mk true "n" "i" "v" [] []) [] 3 0 [] []
      (Or.inl rfl)).1,
    (get_object_panics_on_misuse (Database.mk true "n" "i" "v" [] []) [] 3 0 [] []
      (Or.inl rfl)).2 rfl⟩

/-- Claim C4: for a manifest with the resumable flag set (any value),
the initial cursor handed to the executor is the persisted height for
the uid — which, by the spec-modelled executor recording, is the last
committed block + 1 — and without the flag it is `start_block` or 1. -/
theorem initial_cursor_resumable (m : Manifest) (last : Nat) :
    ((∃ bo, m.resumable = some bo) →
      get_start_block (fun _ _ => recordedHeight last) m = last + 1)
    ∧ (m.resumable = none →
      get_start_block (fun _ _ => recordedHeight last) m = m.start_block.getD 1) := by
  constructor
  · rintro ⟨bo, hb⟩
    simp [get_start_block, hb, recordedHeight]
  · intro h
    simp [get_start_block, h]

/-- Claim C4, witness: a resumable manifest with `start_block = 10` and
last committed block 12 resumes at 13, not 10. -/
theorem initial_cursor_resumable_witness :
    get_start_block (fun _ _ => recordedHeight 12)
      (Manifest.mk "demo" "v1" (some 10) (some true)) = 12 + 1 :=
  (initial_cursor_resumable (Manifest.mk "demo" "v1" (some 10) (some true)) 12).1 ⟨true, rfl⟩

/-- Claim C10: `get_start_block` discards the boolean inside the
resumable field — `Some(false)` resumes from the persisted height
exactly as `Some(true)` does. -/
theorem resumable_value_ignored (p : String → String → Nat) (ns ident : String)
    (sb : Option Nat) :
    get_start_block p (Manifest.mk ns ident sb (some false)) =
      get_start_block p (Manifest.mk ns ident sb (some true))
    ∧ get_start_block p (Manifest.mk ns ident sb (some false)) = p ns ident :=
  ⟨rfl, rfl⟩

/-- Claim C7: `IndexStop` is idempotent — after one application the
second application (on any state, for an unknown uid in particular)
only warns and changes nothing, and the handler surfaces no error in
either case (its result type has no error/panic component; the loop
continues). The hypothesis is the `HashMap` key-uniqueness invariant
of the killers map. -/
theorem indexStop_idempotent (st : SupState) (ns ident : String)
    (h : (st.killers.map Prod.fst).Nodup) :
    handleIndexStop (handleIndexStop st ns ident).1 ns ident =
      ((handleIndexStop st ns ident).1, StopEvent.warnedUnknown)
    ∧ (lookupAssoc st.killers (ns ++ "." ++ ident) = none →
        handleIndexStop st ns ident = (st, StopEvent.warnedUnknown)) := by
  have key : ∀ st' : SupState, lookupAssoc st'.killers (ns ++ "." ++ ident) = none →
      handleIndexStop st' ns ident = (st', StopEvent.warnedUnknown) := by
    intro st' h'
    simp [handleIndexStop, removeAssoc_of_lookup_none _ _ h']
  constructor
  · rcases hrem : removeAssoc st.killers (ns ++ "." ++ ident) with ⟨r1, r2⟩
    cases r1 with
    | none =>
        have h1 : handleIndexStop st ns ident = (st, StopEvent.warnedUnknown) := by
          simp [handleIndexStop, hrem]
        rw [h1]
        exact h1
    | some i =>
        have h1 : handleIndexStop st ns ident =
            (SupState.mk (st.flags.set i true) r2, StopEvent.flagStored) := by
          simp [handleIndexStop, hrem]
        rw [h1]
        exact key (SupState.mk (st.flags.set i true) r2)
          (lookup_none_after_remove st.killers _ i r2 h hrem)
  · exact key st

/-- Claim C7, witness: stopping a registered uid twice — the second
application warns and leaves the state of the first application
unchanged. -/
theorem indexStop_idempotent_witness :
    handleIndexStop (handleIndexStop (SupState.mk [false] [("x.y", 0)]) "x" "y").1 "x" "y" =
      ((handleIndexStop (SupState.mk [false] [("x.y", 0)]) "x" "y").1,
        StopEvent.warnedUnknown) :=
  (indexStop_idempotent (SupState.mk [false] [("x.y", 0)]) "x" "y" (by simp)).1

/-- Claim C5: during `AssetReload` for a uid with a running executor,
the new executor is created and its handle pushed strictly before the
old killer flag is stored (trace order `spawnedNew, pushedHandle,
stoppedPrev`), the new killer replaces the old in the map; when
executor construction fails the handler panics with nothing mutated
(in particular the old flag is not set), and when the index lookup
fails the handler logs and continues with nothing mutated. -/
theorem assetReload_new_live_before_old_cancelled (st : SupState) (mu : String)
    (idOk createOk : Bool) (oldIdx : Nat)
    (h : lookupAssoc st.killers mu = some oldIdx) :
    (idOk = true → createOk = true →
      handleAssetReload st mu idOk createOk =
        ⟨SupState.mk ((st.flags ++ [false]).set oldIdx true)
            (insertAssoc st.killers mu st.flags.length).2,
          [.spawnedNew, .pushedHandle, .stoppedPrev], none⟩
      ∧ lookupAssoc (insertAssoc st.killers mu st.flags.length).2 mu =
          some st.flags.length)
    ∧ (idOk = true → createOk = false →
        handleAssetReload st mu idOk createOk =
          ⟨st, [], some "Failed to spawn executor from index asset registry"⟩)
    ∧ (idOk = false →
        handleAssetReload st mu idOk createOk = ⟨st, [.erroredIndexNotFound], none⟩) := by
  refine ⟨?_, ?_, ?_⟩
  · intro hi hc
    subst hi
    subst hc
    have hfst : (insertAssoc st.killers mu st.flags.length).1 = some oldIdx := by
      rw [insertAssoc_fst]
      exact h
    exact ⟨by simp [handleAssetReload, hfst], lookup_insertAssoc st.killers mu st.flags.length⟩
  · intro hi hc
    subst hi
    subst hc
    simp [handleAssetReload]
  · intro hi
    subst hi
    simp [handleAssetReload]

/-- Claim C5, witness: a concrete reload over a running executor — the
trace pushes the new handle before stopping the previous one. -/
theorem assetReload_new_live_before_old_cancelled_witness :
    handleAssetReload (SupState.mk [false] [("m.u", 0)]) "m.u" true true =
      ⟨SupState.mk [true, false] [("m.u", 1)],
        [.spawnedNew, .pushedHandle, .stoppedPrev], none⟩ :=
  ((assetReload_new_live_before_old_cancelled (SupState.mk [false] [("m.u", 0)])
    "m.u" true true 0 rfl).1 rfl rfl).1

/-- Claim C1, counterexample: an `IndexRevert` whose asset removal fails
(`removeOk = false`) on a supervisor running the uid: the old
executor's flag is nevertheless set (it is stored before the
transaction even begins) and a fresh executor is spawned from the
penultimate bytes after the rollback — refuting "the whole revert
aborts: the currently running executor is left undisturbed". -/
theorem indexRevert_aborts_nothing_cex :
    (handleIndexRevert (SupState.mk [false] [("a.b", 0)]) "a" "b" "a.b" [9] false).1.flags =
      [true, false]
    ∧ (handleIndexRevert (SupState.mk [false] [("a.b", 0)]) "a" "b" "a.b" [9] false).2 =
        [.setOldFlag, .beganTx, .removalFailed, .rolledBackTx, .spawnedFrom [9],
          .pushedHandle] :=
  ⟨rfl, rfl⟩

/-- Claim C1, amended: handling `IndexRevert` for a uid with a running
executor first sets that executor's cancellation flag; the removal of
the latest Module asset then happens inside a DB transaction which is
rolled back on SQL failure and committed otherwise; and in both cases
a fresh executor built from the penultimate bytes is spawned, its
handle pushed and its killer registered — the revert does not abort. -/
theorem indexRevert_flag_first_then_spawn (st : SupState) (ns ident mu : String)
    (bytes : List Nat) (removeOk : Bool) (i : Nat)
    (h : lookupAssoc st.killers (ns ++ "." ++ ident) = some i) :
    handleIndexRevert st ns ident mu bytes removeOk =
      (SupState.mk (st.flags.set i true ++ [false])
          (insertAssoc st.killers mu (st.flags.set i true).length).2,
        [RevertEvent.setOldFlag] ++
          (if removeOk then [.beganTx, .removedLatestModule, .committedTx]
            else [.beganTx, .removalFailed, .rolledBackTx]) ++
          [.spawnedFrom bytes, .pushedHandle]) := by
  simp [handleIndexRevert, h]

/-- Claim C1, witness: the amended theorem at a concrete supervisor
state with a successful removal. -/
theorem indexRevert_flag_first_then_spawn_witness :
    handleIndexRevert (SupState.mk [false] [("a.b", 0)]) "a" "b" "a.b" [9] true =
      (SupState.mk [true, false] [("a.b", 1)],
        [.setOldFlag, .beganTx, .removedLatestModule, .committedTx, .spawnedFrom [9],
          .pushedHandle]) :=
  indexRevert_flag_first_then_spawn (SupState.mk [false] [("a.b", 0)]) "a" "b" "a.b"
    [9] true 0 rfl

end FuelIndexer
